import Mathlib

/-!
# Verification of the Smart Content Moderator core

A shallow embedding of the moderation pipeline of this repository:

* `ModerationService` (src/services/moderation_service.py): content hashing
  (SHA-256 of the submitted bytes) and the two analyzer entry points
  `analyze_text` / `analyze_image`.  The effectful prefix of each analyzer
  (Gemini client initialization, image decoding, upload, generation) is
  modelled as an `Except String GeminiResponse` environment value: `.error e`
  is the outcome in which that prefix raised an exception with message `e`,
  `.ok resp` the outcome in which it returned a response.  Everything after
  the backend call is pure and is transcribed directly from the source.
* `NotificationService` (src/services/notification_service.py): per-channel
  dispatch with configuration-presence checks; the HTTP transport of each
  channel is modelled as an `Except String (Nat × String)` (exception, or
  status code and body).
* The two pipeline endpoints `moderate_text` (src/api/text_moderation.py)
  and `moderate_image` (src/api/image_moderation.py), embedded as pure
  functions from an environment and a store to a trace of store events plus
  an `Except`-valued HTTP response.  The mapped class `ModerationRequest`
  (src/models/moderation.py) defines no `user_email` attribute, so the
  `ModerationRequest(..., user_email=...)` constructor call in the text
  endpoint raises `TypeError` on every call and the generic handler turns
  it into HTTP 500: the text endpoint never writes a row, and the
  embedding reflects that.
* The read side: `get_analysis_summaries` (src/api/summary.py) and
  `get_analytics_summary` (src/api/analytics.py) over the same store.  The
  analytics query evaluates `ModerationRequest.user_email`, which the
  mapped class does not define, so that endpoint raises `AttributeError`
  and answers HTTP 500 on every call; the embedding reflects that too.

Python floats are modelled as `ℚ` (every confidence constant in the source
is an exact decimal).  Python dictionaries serialized through
`json.dumps`/`json.loads` are modelled by the structured payload they carry
(the pipeline only ever reads back the `flagged_categories` field).
-/

namespace Moderator

/-! ## SHA-256 (the digest used by `hashlib.sha256` in
`generate_content_hash` / `generate_image_hash`).  Bytes are `Nat`s below
256; 32-bit words are `Nat`s reduced mod `2^32`. -/

def w32 (n : Nat) : Nat := n % 4294967296

def rotr (x n : Nat) : Nat := w32 ((x >>> n) ||| (x <<< (32 - n)))

def bsig0 (x : Nat) : Nat := (rotr x 2) ^^^ (rotr x 13) ^^^ (rotr x 22)

def bsig1 (x : Nat) : Nat := (rotr x 6) ^^^ (rotr x 11) ^^^ (rotr x 25)

def ssig0 (x : Nat) : Nat := (rotr x 7) ^^^ (rotr x 18) ^^^ (x >>> 3)

def ssig1 (x : Nat) : Nat := (rotr x 17) ^^^ (rotr x 19) ^^^ (x >>> 10)

def chFn (x y z : Nat) : Nat := (x &&& y) ^^^ ((x ^^^ 4294967295) &&& z)

def majFn (x y z : Nat) : Nat := (x &&& y) ^^^ (x &&& z) ^^^ (y &&& z)

def shaK : List Nat :=
  [1116352408, 1899447441, 3049323471, 3921009573, 961987163,
   1508970993, 2453635748, 2870763221, 3624381080, 310598401,
   607225278, 1426881987, 1925078388, 2162078206, 2614888103,
   3248222580, 3835390401, 4022224774, 264347078, 604807628,
   770255983, 1249150122, 1555081692, 1996064986, 2554220882,
   2821834349, 2952996808, 3210313671, 3336571891, 3584528711,
   113926993, 338241895, 666307205, 773529912, 1294757372,
   1396182291, 1695183700, 1986661051, 2177026350, 2456956037,
   2730485921, 2820302411, 3259730800, 3345764771, 3516065817,
   3600352804, 4094571909, 275423344, 430227734, 506948616,
   659060556, 883997877, 958139571, 1322822218, 1537002063,
   1747873779, 1955562222, 2024104815, 2227730452, 2361852424,
   2428436474, 2756734187, 3204031479, 3329325298]

def shaH0 : List Nat :=
  [1779033703, 3144134277, 1013904242, 2773480762, 1359893119,
   2600822924, 528734635, 1541459225]

/-- Big-endian packing of bytes into 32-bit words. -/
def toWords : List Nat → List Nat
  | b0 :: b1 :: b2 :: b3 :: rest =>
      (((b0 * 256 + b1) * 256 + b2) * 256 + b3) :: toWords rest
  | _ => []

/-- Message-schedule extension: starting from the 16 block words, push
`n` further words following the SHA-256 recurrence. -/
def extendSchedule : Nat → Array Nat → Array Nat
  | 0, ws => ws
  | n + 1, ws =>
      let t := ws.size
      let w := w32 (ssig1 (ws.getD (t - 2) 0) + ws.getD (t - 7) 0 +
                    ssig0 (ws.getD (t - 15) 0) + ws.getD (t - 16) 0)
      extendSchedule n (ws.push w)

structure Hash8 where
  a : Nat
  b : Nat
  c : Nat
  d : Nat
  e : Nat
  f : Nat
  g : Nat
  h : Nat
deriving Repr, DecidableEq

def shaRound (st : Hash8) (kw : Nat × Nat) : Hash8 :=
  let t1 := w32 (st.h + bsig1 st.e + chFn st.e st.f st.g + kw.1 + kw.2)
  let t2 := w32 (bsig0 st.a + majFn st.a st.b st.c)
  ⟨w32 (t1 + t2), st.a, st.b, st.c, w32 (st.d + t1), st.e, st.f, st.g⟩

def compress (hs : List Nat) (block : List Nat) : List Nat :=
  let ws := (extendSchedule 48 (toWords block).toArray).toList
  let init : Hash8 :=
    ⟨hs.getD 0 0, hs.getD 1 0, hs.getD 2 0, hs.getD 3 0,
     hs.getD 4 0, hs.getD 5 0, hs.getD 6 0, hs.getD 7 0⟩
  let st := (shaK.zip ws).foldl shaRound init
  [w32 (hs.getD 0 0 + st.a), w32 (hs.getD 1 0 + st.b),
   w32 (hs.getD 2 0 + st.c), w32 (hs.getD 3 0 + st.d),
   w32 (hs.getD 4 0 + st.e), w32 (hs.getD 5 0 + st.f),
   w32 (hs.getD 6 0 + st.g), w32 (hs.getD 7 0 + st.h)]

/-- SHA-256 padding: append `0x80`, zero bytes up to 56 mod 64, then the
bit length as an 8-byte big-endian integer. -/
def padMessage (msg : List Nat) : List Nat :=
  let L := msg.length * 8
  let z := (64 + 56 - ((msg.length + 1) % 64)) % 64
  msg ++ [0x80] ++ List.replicate z 0 ++
    [(L >>> 56) &&& 255, (L >>> 48) &&& 255, (L >>> 40) &&& 255,
     (L >>> 32) &&& 255, (L >>> 24) &&& 255, (L >>> 16) &&& 255,
     (L >>> 8) &&& 255, L &&& 255]

/-- Split into 64-byte chunks (fuel-indexed so that it is structurally
recursive; the fuel is the list length, enough for chunks of 64). -/
def chunkHelper : Nat → List Nat → List (List Nat)
  | 0, _ => []
  | _, [] => []
  | fuel + 1, l => l.take 64 :: chunkHelper fuel (l.drop 64)

def chunksOf64 (l : List Nat) : List (List Nat) := chunkHelper l.length l

def hexDigitChar (n : Nat) : Char :=
  if n < 10 then Char.ofNat (48 + n) else Char.ofNat (87 + n)

def toHex8 (n : Nat) : String :=
  String.mk ((List.range 8).map (fun i => hexDigitChar ((n >>> ((7 - i) * 4)) &&& 15)))

/-- Embeds `hashlib.sha256(bytes).hexdigest()`. -/
def sha256hex (msg : List Nat) : String :=
  String.join (((chunksOf64 (padMessage msg)).foldl compress shaH0).map toHex8)

/-- UTF-8 encoding of one character (`str.encode()` in Python encodes
UTF-8 by default). -/
def utf8EncodeChar (c : Char) : List Nat :=
  let n := c.toNat
  if n < 128 then [n]
  else if n < 2048 then [192 ||| (n >>> 6), 128 ||| (n &&& 63)]
  else if n < 65536 then
    [224 ||| (n >>> 12), 128 ||| ((n >>> 6) &&& 63), 128 ||| (n &&& 63)]
  else
    [240 ||| (n >>> 18), 128 ||| ((n >>> 12) &&& 63),
     128 ||| ((n >>> 6) &&& 63), 128 ||| (n &&& 63)]

/-- Embeds `content.encode()`: the UTF-8 bytes of a string. -/
def utf8Bytes (s : String) : List Nat := s.data.flatMap utf8EncodeChar

/-- Embeds `ModerationService.generate_content_hash`: SHA-256 hex digest of the
UTF-8 encoding of the text. -/
def generate_content_hash (content : String) : String :=
  sha256hex (utf8Bytes content)

/-- Embeds `ModerationService.generate_image_hash`: SHA-256 hex digest of the raw
bytes. -/
def generate_image_hash (image_bytes : List Nat) : String :=
  sha256hex image_bytes

/-! ## Analyzer (`ModerationService.analyze_text` / `analyze_image`)

The effectful prefix of each analyzer call (client initialization, image
decoding and upload, `model.generate_content`) is modelled as an
`Except String GeminiResponse`: `.error e` is the outcome in which that
prefix raised an exception whose string form is `e` (malformed image,
missing API key, backend unavailable...), `.ok r` the outcome in which
Gemini returned response `r`.  The source wraps the whole body in one
`try`/`except Exception` whose handler builds the error result, so the
embedding matches the two branches one for one. -/

structure SafetyRating where
  category : String
  probability : String
deriving Repr, DecidableEq

/-- The fields of the Gemini response the analyzer reads:
`response.candidates[0].safety_ratings` (the empty list models absent or
empty `candidates`, which the source treats alike via
`hasattr(...) and response.candidates`) and `response.text` (the empty
string models an absent or falsy text, treated alike by the source). -/
structure GeminiResponse where
  safety_ratings : List SafetyRating
  text : String
deriving Repr, DecidableEq

/-- The part of the serialized `llm_response` JSON that the pipeline reads
back (`json.loads(...)["flagged_categories"]`): on the success branch the
payload carries the flagged category list, on the error branch only an
error message (so the `.get("flagged_categories", [])` of the pipeline yields
`[]`). -/
inductive LlmPayload where
  | success (flagged_categories : List String)
  | error (msg : String)
deriving Repr, DecidableEq

structure AnalysisResult where
  classification : String
  confidence : ℚ
  reasoning : String
  llm_response : LlmPayload
deriving Repr, DecidableEq

/-- Embeds `ModerationService.HARM_CATEGORIES.get(name, name)`. -/
def HARM_CATEGORIES (name : String) : String :=
  if name = "HARM_CATEGORY_HATE_SPEECH" then "hate_speech"
  else if name = "HARM_CATEGORY_DANGEROUS_CONTENT" then "dangerous_content"
  else if name = "HARM_CATEGORY_HARASSMENT" then "harassment"
  else if name = "HARM_CATEGORY_SEXUALLY_EXPLICIT" then "sexually_explicit"
  else name

/-- Embeds `ModerationService.HARM_PROBABILITY_SCORES.get(probability, 0.0)`. -/
def HARM_PROBABILITY_SCORES (probability : String) : ℚ :=
  if probability = "NEGLIGIBLE" then 0.1
  else if probability = "LOW" then 0.3
  else if probability = "MEDIUM" then 0.6
  else if probability = "HIGH" then 0.9
  else 0

/-- One iteration of the safety-rating loop: look up the category name
and the bucket score, append the category to the flagged list when the
probability bucket is MEDIUM or HIGH, and update the running maximum
score. -/
def ratingStep (acc : List String × ℚ) (r : SafetyRating) : List String × ℚ :=
  let category_name := HARM_CATEGORIES r.category
  let score := HARM_PROBABILITY_SCORES r.probability
  let flagged :=
    if r.probability = "MEDIUM" ∨ r.probability = "HIGH" then
      acc.1 ++ [category_name]
    else acc.1
  (flagged, max acc.2 score)

/-- The safety-rating loop shared verbatim by both analyzers, starting
from `([], 0.0)`. -/
def processRatings (rs : List SafetyRating) : List String × ℚ :=
  rs.foldl ratingStep ([], 0)

/-- Embeds `word in gemini_analysis.lower()`: substring test on the character
lists. -/
def hasSubstr (s w : String) : Bool := decide (w.data <:+: s.data)

def badWords : List String := ["inappropriate", "problematic", "flagged", "harmful"]

/-- Embeds `ModerationService.analyze_text`. -/
def analyze_text (backend : Except String GeminiResponse) (text : String) :
    AnalysisResult :=
  match backend with
  | .error e =>
      { classification := "error"
        confidence := 0
        reasoning := "Error analyzing text: " ++ e
        llm_response := .error e }
  | .ok response =>
      let (flagged_categories, max_score) := processRatings response.safety_ratings
      let gemini_analysis := response.text
      let is_appropriate_by_content :=
        !(gemini_analysis ≠ "" &&
          badWords.any (fun w => hasSubstr gemini_analysis.toLower w))
      let is_inappropriate := !flagged_categories.isEmpty || !is_appropriate_by_content
      let classification := if is_inappropriate then "inappropriate" else "appropriate"
      let confidence := if max_score > 0 then max_score else 0.85
      let reasoning :=
        if is_inappropriate then
          "Gemini detected potentially inappropriate content. " ++
          (if !flagged_categories.isEmpty then
            "Flagged safety categories: " ++
              String.intercalate ", " flagged_categories ++ ". "
           else "") ++ "Content requires review."
        else
          "Gemini analysis indicates appropriate content. No safety concerns detected."
      { classification := classification
        confidence := confidence
        reasoning := reasoning
        llm_response := .success flagged_categories }

/-- Embeds `ModerationService.analyze_image`.  The rating loop, classification,
confidence and flagging logic are character-for-character the same as the
text analyzer; only the reasoning strings and the error prefix differ
(the image dimensions and format recorded in `llm_response` are dropped
from the payload model, which keeps only the field the pipeline reads). -/
def analyze_image (backend : Except String GeminiResponse)
    (_image_bytes : List Nat) : AnalysisResult :=
  match backend with
  | .error e =>
      { classification := "error"
        confidence := 0
        reasoning := "Error processing image: " ++ e
        llm_response := .error e }
  | .ok response =>
      let (flagged_categories, max_score) := processRatings response.safety_ratings
      let gemini_analysis := response.text
      let is_appropriate_by_content :=
        !(gemini_analysis ≠ "" &&
          badWords.any (fun w => hasSubstr gemini_analysis.toLower w))
      let is_inappropriate := !flagged_categories.isEmpty || !is_appropriate_by_content
      let classification := if is_inappropriate then "inappropriate" else "appropriate"
      let confidence := if max_score > 0 then max_score else 0.85
      let reasoning :=
        if is_inappropriate then
          "Gemini detected potentially inappropriate image content. " ++
          (if !flagged_categories.isEmpty then
            "Flagged safety categories: " ++
              String.intercalate ", " flagged_categories ++ ". "
           else "") ++ "Image requires review."
        else
          "Gemini analysis indicates appropriate image content. No safety concerns detected."
      { classification := classification
        confidence := confidence
        reasoning := reasoning
        llm_response := .success flagged_categories }

/-! ## NotificationService (src/services/notification_service.py)

Configuration comes from environment variables (`os.getenv`): `none`
models an unset variable, `some s` a set one; Python string truthiness
(`if not webhook_url`, `all([...])`) makes both `none` and `some ""`
unconfigured.  The HTTP transport of each channel is an
`Except String (Nat × String)`: exception message, or response status
code and body. -/

structure NotifConfig where
  slack_webhook_url : Option String
  brevo_api_key : Option String
  email_from : Option String
  email_to : Option String
deriving Repr, DecidableEq

/-- Python falsiness of an optional string (unset, or set to `""`). -/
def falsyStr : Option String → Bool
  | none => true
  | some s => s = ""

structure NotifResult where
  status : String
  message : String
deriving Repr, DecidableEq

/-- Embeds `NotificationService.send_slack_notification`.  The Slack block/
attachment payload built in the body is pure serialization of the
arguments and is not modelled; only the returned status dictionary is. -/
def send_slack_notification (cfg : NotifConfig)
    (transport : Except String (Nat × String)) : NotifResult :=
  if falsyStr cfg.slack_webhook_url then
    { status := "skipped", message := "Slack webhook URL not configured" }
  else
    match transport with
    | .error e =>
        { status := "failed", message := "Error sending Slack notification: " ++ e }
    | .ok (code, body) =>
        if code = 200 then
          { status := "sent", message := "Slack notification sent successfully" }
        else
          { status := "failed"
            message := "Slack API returned status " ++ toString code ++ ": " ++ body }

/-- Embeds `NotificationService.send_email_notification`.  Configured only when
all of the Brevo key, sender and recipient addresses are truthy
(`if not all([brevo_api_key, email_from, email_to])`); the email bodies
are pure serialization and are not modelled. -/
def send_email_notification (cfg : NotifConfig)
    (transport : Except String (Nat × String)) : NotifResult :=
  if falsyStr cfg.brevo_api_key || falsyStr cfg.email_from || falsyStr cfg.email_to then
    { status := "skipped", message := "Brevo email configuration not complete" }
  else
    match transport with
    | .error e =>
        { status := "failed", message := "Error sending Brevo email notification: " ++ e }
    | .ok (code, body) =>
        if code = 200 ∨ code = 201 then
          { status := "sent", message := "Email notification sent successfully via Brevo" }
        else
          { status := "failed"
            message := "Brevo API returned status " ++ toString code ++ ": " ++ body }

structure NotifyEnv where
  cfg : NotifConfig
  slackTransport : Except String (Nat × String)
  emailTransport : Except String (Nat × String)

/-- Embeds `NotificationService.notify_inappropriate_content`: the result map
`{"slack": ..., "email": ...}`, in insertion order.  The content
arguments (request id, content type, classification, confidence,
reasoning, flagged categories) are forwarded to both channels, where they
only shape the serialized message bodies, not the returned statuses. -/
def notify_inappropriate_content (env : NotifyEnv) (request_id : Nat)
    (content_type classification : String) (confidence : ℚ) (reasoning : String)
    (flagged_categories : List String) : List (String × NotifResult) :=
  [("slack", send_slack_notification env.cfg env.slackTransport),
   ("email", send_email_notification env.cfg env.emailTransport)]

/-! ## Store (src/models/moderation.py) and the pipeline endpoints

The relational store is modelled as lists of rows plus an id counter; the
pipeline endpoints are embedded as pure functions returning the trace of
store operations they perform, in source order, together with the HTTP
response.  `created_at` timestamps are `Nat`s supplied by the
environment (`func.now()`). -/

structure RequestRow where
  id : Nat
  content_type : String
  content_hash : String
  status : String
  created_at : Nat
deriving Repr, DecidableEq

structure ResultRow where
  request_id : Nat
  classification : String
  confidence : Option ℚ
  reasoning : String
deriving Repr, DecidableEq

structure NotificationRow where
  request_id : Nat
  channel : String
  status : String
deriving Repr, DecidableEq

structure Store where
  requests : List RequestRow
  results : List ResultRow
  notifications : List NotificationRow
  nextId : Nat
deriving Repr, DecidableEq

def emptyStore : Store := ⟨[], [], [], 0⟩

/-- One committed store operation.  `hashContent` and `analyzeContent`
are pure marker events recording that the content hash was computed and
the Analyzer invoked; they do not change the store. -/
inductive Event where
  | hashContent (hash : String)
  | analyzeContent (content_type : String)
  | createRequest (row : RequestRow)
  | insertResult (row : ResultRow)
  | setStatus (request_id : Nat) (status : String)
  | insertNotification (row : NotificationRow)
deriving Repr, DecidableEq

def applyEvent (db : Store) : Event → Store
  | .hashContent _ => db
  | .analyzeContent _ => db
  | .createRequest row =>
      { db with requests := db.requests ++ [row], nextId := db.nextId + 1 }
  | .insertResult row => { db with results := db.results ++ [row] }
  | .setStatus rid st =>
      { db with requests :=
          db.requests.map (fun r => if r.id = rid then { r with status := st } else r) }
  | .insertNotification row =>
      { db with notifications := db.notifications ++ [row] }

def replay (db : Store) (events : List Event) : Store :=
  events.foldl applyEvent db

structure HTTPErrorResponse where
  status_code : Nat
  detail : String
deriving Repr, DecidableEq

structure ModerationResponse where
  request_id : Nat
  status : String
  message : String
deriving Repr, DecidableEq

structure TextModerationRequest where
  text : String
  content_id : Option String
  user_email : Option String
deriving Repr, DecidableEq

/-- The flagged-category extraction both endpoints perform on the stored
`llm_response` (`json.loads` + `.get("flagged_categories", [])`; a parse
failure or missing key yields `[]`, which the error payload models). -/
def extractFlagged : LlmPayload → List String
  | .success f => f
  | .error _ => []

/-- The notification block shared by both endpoints (lines 62-97 of
text_moderation.py, 73-108 of image_moderation.py): when the
classification is "inappropriate", dispatch to all channels and persist
one `NotificationLog` row per non-skipped channel outcome; the trailing
`db.commit` may fail (`notifLogCommit = .error _`), in which case the
rows of the whole block are not persisted and the exception is caught and
printed, never propagated. -/
def notificationEvents (notify : NotifyEnv) (notifLogCommit : Except String Unit)
    (rid : Nat) (content_type : String) (analysis_result : AnalysisResult) :
    List Event :=
  if analysis_result.classification = "inappropriate" then
    let flagged_categories := extractFlagged analysis_result.llm_response
    let notification_results :=
      notify_inappropriate_content notify rid content_type
        analysis_result.classification analysis_result.confidence
        analysis_result.reasoning flagged_categories
    match notifLogCommit with
    | .ok _ =>
        (notification_results.filter (fun cr => cr.2.status ≠ "skipped")).map
          (fun cr => .insertNotification ⟨rid, cr.1, cr.2.status⟩)
    | .error _ => []
  else []

structure PipelineEnv where
  backend : Except String GeminiResponse
  notify : NotifyEnv
  notifLogCommit : Except String Unit
  now : Nat

/-- Embeds `moderate_text` (src/api/text_moderation.py).  The body first
computes the content hash (line 29) and then constructs
`ModerationRequest(content_type=..., content_hash=..., user_email=...,
status=...)` at line 32.  The mapped class `ModerationRequest`
(src/models/moderation.py) defines no `user_email` attribute, so the
SQLAlchemy declarative constructor rejects the keyword and raises
`TypeError` there, before any `db.add`; the generic handler at line 105
rolls back and answers HTTP 500 (detail built from the `TypeError`
message, quotes elided here).  Every statement after line 32 is
unreachable on every input: no request row is created, the Analyzer is
never invoked, no status is assigned and no notification row is written,
so the trace records only the hash computation. -/
def moderate_text (env : PipelineEnv) (request : TextModerationRequest)
    (db : Store) : List Event × Except HTTPErrorResponse ModerationResponse :=
  let content_hash := generate_content_hash request.text
  ([Event.hashContent content_hash],
   .error { status_code := 500
            detail := "Error processing text moderation: user_email is an invalid keyword argument for ModerationRequest" })

def allowed_types : List String :=
  ["image/jpeg", "image/jpg", "image/png", "image/gif", "image/webp"]

/-- Embeds `moderate_image` (src/api/image_moderation.py): reject undeclared
image MIME types with HTTP 400 before any store operation; otherwise
hash, insert the pending request, analyze, insert the result, set status
"completed" unless the classification is "error" (then "failed"), run
the notification block, and respond with the final status of the request. -/
def moderate_image (env : PipelineEnv) (image_content_type : String)
    (image_bytes : List Nat) (db : Store) :
    List Event × Except HTTPErrorResponse ModerationResponse :=
  if image_content_type ∉ allowed_types then
    ([], .error
      { status_code := 400
        detail := "Invalid file type. Allowed types: " ++
          String.intercalate ", " allowed_types })
  else
    let content_hash := generate_image_hash image_bytes
    let rid := db.nextId
    let analysis_result := analyze_image env.backend image_bytes
    let final_status :=
      if analysis_result.classification ≠ "error" then "completed" else "failed"
    let events :=
      [Event.hashContent content_hash,
       Event.createRequest ⟨rid, "image", content_hash, "pending", env.now⟩,
       Event.analyzeContent "image",
       Event.insertResult ⟨rid, analysis_result.classification,
         some analysis_result.confidence, analysis_result.reasoning⟩,
       Event.setStatus rid final_status] ++
      notificationEvents env.notify env.notifLogCommit rid "image" analysis_result
    (events,
     .ok { request_id := rid
           status := final_status
           message := "Image moderation completed. Classification: " ++
             analysis_result.classification })

/-! ## Read side: summaries (src/api/summary.py) and analytics
(src/api/analytics.py) -/

structure ModerationResultDetail where
  classification : String
  confidence : Option ℚ
  reasoning : String
deriving Repr, DecidableEq

structure AnalysisSummaryResponse where
  request_id : Nat
  content_type : String
  content_hash : String
  status : String
  created_at : Nat
  result : Option ModerationResultDetail
deriving Repr, DecidableEq

/-- Embeds the `.first()` lookup on `ModerationResult` filtered by request id. -/
def firstResultFor (db : Store) (rid : Nat) : Option ResultRow :=
  (db.results.filter (fun r => r.request_id = rid)).head?

/-- Embeds `ORDER BY created_at DESC`: descending order on `created_at`. -/
def createdDesc (a b : RequestRow) : Prop := b.created_at ≤ a.created_at

instance : DecidableRel createdDesc := fun a b => Nat.decLe _ _

instance : IsTotal RequestRow createdDesc :=
  ⟨fun a b => Nat.le_total b.created_at a.created_at⟩

instance : IsTrans RequestRow createdDesc :=
  ⟨fun _ _ _ hab hbc => Nat.le_trans hbc hab⟩

/-- The row filter of the list endpoint: the optional `content_type` and
`status` query parameters are applied only when truthy
(`if content_type:` / `if status:`). -/
def matchesFilters (content_type status : Option String) (r : RequestRow) : Bool :=
  (falsyStr content_type || r.content_type = content_type.getD "") &&
  (falsyStr status || r.status = status.getD "")

/-- Embeds `get_analysis_summaries` (src/api/summary.py): filter, count the
filtered rows for `total`, sort by `created_at` descending, apply
offset/limit, and attach the first result row of each request. -/
def get_analysis_summaries (db : Store) (skip limit : Nat)
    (content_type status : Option String) : Nat × List AnalysisSummaryResponse :=
  let filtered := db.requests.filter (matchesFilters content_type status)
  let total := filtered.length
  let moderation_requests :=
    ((List.insertionSort createdDesc filtered).drop skip).take limit
  let summaries := moderation_requests.map (fun request =>
    let result := firstResultFor db request.id
    { request_id := request.id
      content_type := request.content_type
      content_hash := request.content_hash
      status := request.status
      created_at := request.created_at
      result := result.map (fun res =>
        { classification := res.classification
          confidence := res.confidence
          reasoning := res.reasoning }) })
  (total, summaries)

structure ContentTypeBreakdown where
  text : Nat
  image : Nat
deriving Repr, DecidableEq

structure ClassificationBreakdown where
  appropriate : Nat
  inappropriate : Nat
deriving Repr, DecidableEq

structure StatusBreakdown where
  pending : Nat
  completed : Nat
  failed : Nat
deriving Repr, DecidableEq

structure AnalyticsSummary where
  user_email : String
  total_requests : Nat
  content_type_breakdown : ContentTypeBreakdown
  classification_breakdown : ClassificationBreakdown
  status_breakdown : StatusBreakdown
  average_confidence : Option ℚ
  first_request_date : Option Nat
  last_request_date : Option Nat
deriving Repr, DecidableEq

/-- Embeds `get_analytics_summary` (src/api/analytics.py).  The first
statement of its try-block builds the query filter from
`ModerationRequest.user_email` (lines 42-44); the mapped class
`ModerationRequest` (src/models/moderation.py) defines no `user_email`
attribute, so that expression raises `AttributeError` before any row is
read, and the handler at line 125 answers HTTP 500 (detail built from the
`AttributeError` message, quotes elided here).  The whole aggregation
below that line is unreachable, for every user and every store state. -/
def get_analytics_summary (db : Store) (user : String) :
    Except HTTPErrorResponse AnalyticsSummary :=
  .error { status_code := 500
           detail := "Error retrieving analytics: type object ModerationRequest has no attribute user_email" }

/-! ## Derived notions used by the verification -/

/-- A store of 25 completed text requests (ids and creation times
0..24), for the pagination scenario of the spec. -/
def db25 : Store :=
  ⟨(List.range 25).map (fun i => ⟨i, "text", "h", "completed", i⟩),
   [], [], 25⟩

/-- The notification rows inserted by a trace. -/
def notificationsOf (events : List Event) : List NotificationRow :=
  events.filterMap (fun e =>
    match e with
    | .insertNotification r => some r
    | _ => none)

def isSetStatus : Event → Bool
  | .setStatus _ _ => true
  | _ => false

/-- The channels with configuration present, in dispatch order. -/
def configuredChannels (cfg : NotifConfig) : List String :=
  (if falsyStr cfg.slack_webhook_url then [] else ["slack"]) ++
  (if falsyStr cfg.brevo_api_key || falsyStr cfg.email_from || falsyStr cfg.email_to
   then [] else ["email"])

/-- The status of the request row with the given id (the first matching
row, as a primary-key lookup). -/
def requestStatus (db : Store) (rid : Nat) : Option String :=
  (db.requests.find? (fun r => r.id = rid)).map (fun r => r.status)

/-- Store well-formedness: every stored request id is below the id
counter (what the autoincrement primary key guarantees). -/
def StoreWF (db : Store) : Prop := ∀ r ∈ db.requests, r.id < db.nextId

/-- A trace is status-monotonic for request `rid`: it contains exactly
one `setStatus` event for the whole trace, that event carries a terminal
status, it comes after the insertion of the result row of `rid` and after
the creation of the row of `rid` with status "pending", and no event after it is a
status assignment. -/
def monotonicTrace (events : List Event) (rid : Nat) : Prop :=
  ∃ st pre post,
    events = pre ++ Event.setStatus rid st :: post ∧
    (st = "completed" ∨ st = "failed") ∧
    (∃ row : RequestRow, Event.createRequest row ∈ pre ∧
      row.id = rid ∧ row.status = "pending") ∧
    (∃ res : ResultRow, Event.insertResult res ∈ pre ∧ res.request_id = rid) ∧
    (∀ e ∈ pre, isSetStatus e = false) ∧
    (∀ e ∈ post, isSetStatus e = false)

/-! ## Helper lemmas -/

theorem notificationEvents_only_notifs (notify : NotifyEnv)
    (commit : Except String Unit) (rid : Nat) (ct : String)
    (ar : AnalysisResult) :
    ∀ e ∈ notificationEvents notify commit rid ct ar,
      ∃ r, e = Event.insertNotification r := by
  intro e he
  unfold notificationEvents at he
  split at he
  · cases commit with
    | ok u =>
        simp only [List.mem_map] at he
        obtain ⟨cr, _, rfl⟩ := he
        exact ⟨_, rfl⟩
    | error m => simp at he
  · simp at he

theorem replay_requests_of_notifs (db : Store) (events : List Event)
    (h : ∀ e ∈ events, ∃ r, e = Event.insertNotification r) :
    (replay db events).requests = db.requests := by
  induction events generalizing db with
  | nil => rfl
  | cons e rest ih =>
      obtain ⟨r, rfl⟩ := h e (List.mem_cons_self e rest)
      simpa [replay, applyEvent] using
        ih _ (fun e' he' => h e' (List.mem_cons_of_mem _ he'))

theorem notificationsOf_of_notifs (events : List Event)
    (h : ∀ e ∈ events, ∃ r, e = Event.insertNotification r) :
    ∀ e ∈ events, isSetStatus e = false := by
  intro e he
  obtain ⟨r, rfl⟩ := h e he
  rfl

theorem replay_notifications (db : Store) (events : List Event) :
    (replay db events).notifications = db.notifications ++ notificationsOf events := by
  induction events generalizing db with
  | nil => simp [replay, notificationsOf]
  | cons e rest ih =>
      cases e <;>
        simp [replay, applyEvent, notificationsOf, List.filterMap_cons] at ih ⊢ <;>
        simp [List.foldl_cons, ih, applyEvent]

theorem map_setStatus_of_ne (l : List RequestRow) (rid : Nat) (st : String)
    (h : ∀ r ∈ l, r.id ≠ rid) :
    l.map (fun r => if r.id = rid then { r with status := st } else r) = l := by
  induction l with
  | nil => rfl
  | cons r rest ih =>
      have hr := h r (List.mem_cons_self r rest)
      simp [hr, ih (fun r' hr' => h r' (List.mem_cons_of_mem _ hr'))]

/-- Replaying the canonical five pipeline events followed by
notification-only events, on a well-formed store, appends exactly one
request row carrying the terminal status. -/
theorem replay_pipeline_requests (db : Store) (hwf : StoreWF db)
    (hash ct : String) (row : RequestRow) (hrow : row.id = db.nextId)
    (res : ResultRow) (st : String) (notifs : List Event)
    (honly : ∀ e ∈ notifs, ∃ r, e = Event.insertNotification r) :
    (replay db ([Event.hashContent hash, Event.createRequest row,
        Event.analyzeContent ct, Event.insertResult res,
        Event.setStatus row.id st] ++ notifs)).requests =
      db.requests ++ [{ row with status := st }] := by
  have hmap : (db.requests ++ [row]).map
      (fun r => if r.id = row.id then { r with status := st } else r) =
      db.requests ++ [{ row with status := st }] := by
    rw [List.map_append, map_setStatus_of_ne]
    · simp
    · intro r hr
      rw [hrow]
      exact Nat.ne_of_lt (hwf r hr)
  calc (replay db ([Event.hashContent hash, Event.createRequest row,
        Event.analyzeContent ct, Event.insertResult res,
        Event.setStatus row.id st] ++ notifs)).requests
      = (replay { replay db [Event.hashContent hash, Event.createRequest row,
          Event.analyzeContent ct, Event.insertResult res] with
          requests := db.requests ++ [{ row with status := st }] } notifs).requests := by
        simp only [replay, List.foldl_append, List.foldl_cons, List.foldl_nil]
        congr 1
        simp [applyEvent, hmap]
    _ = db.requests ++ [{ row with status := st }] := by
        rw [replay_requests_of_notifs _ _ honly]

theorem find?_append_new (old : List RequestRow) (row : RequestRow)
    (nid : Nat) (hrow : row.id = nid) (h : ∀ r ∈ old, r.id < nid) :
    (old ++ [row]).find? (fun r => r.id = nid) = some row := by
  rw [List.find?_append]
  have hnone : old.find? (fun r => r.id = nid) = none := by
    rw [List.find?_eq_none]
    intro r hr
    simpa using Nat.ne_of_lt (h r hr)
  simp [hnone, hrow]

theorem notificationEvents_not_inappropriate (notify : NotifyEnv)
    (commit : Except String Unit) (rid : Nat) (ct : String)
    (ar : AnalysisResult) (h : ar.classification ≠ "inappropriate") :
    notificationEvents notify commit rid ct ar = [] := by
  unfold notificationEvents
  rw [if_neg h]

theorem notificationsOf_pipeline (e1 e2 : String) (row : RequestRow)
    (res : ResultRow) (rid : Nat) (st : String) (notifs : List Event) :
    notificationsOf ([Event.hashContent e1, Event.createRequest row,
        Event.analyzeContent e2, Event.insertResult res,
        Event.setStatus rid st] ++ notifs) = notificationsOf notifs := by
  simp [notificationsOf]

/-- The final status of the request created by the image endpoint (for a
valid MIME type) is "completed" unless the analyzer classification is
"error", in which case it is "failed". -/
theorem moderate_image_requestStatus (env : PipelineEnv)
    (image_content_type : String) (image_bytes : List Nat) (db : Store)
    (hwf : StoreWF db) (hct : image_content_type ∈ allowed_types) :
    requestStatus (replay db
        (moderate_image env image_content_type image_bytes db).1) db.nextId =
      some (if (analyze_image env.backend image_bytes).classification ≠ "error"
            then "completed" else "failed") := by
  have hreq := replay_pipeline_requests db hwf
    (generate_image_hash image_bytes) "image"
    ⟨db.nextId, "image", generate_image_hash image_bytes, "pending", env.now⟩ rfl
    ⟨db.nextId, (analyze_image env.backend image_bytes).classification,
      some (analyze_image env.backend image_bytes).confidence,
      (analyze_image env.backend image_bytes).reasoning⟩
    (if (analyze_image env.backend image_bytes).classification ≠ "error"
     then "completed" else "failed")
    (notificationEvents env.notify env.notifLogCommit db.nextId "image"
      (analyze_image env.backend image_bytes))
    (notificationEvents_only_notifs _ _ _ _ _)
  unfold requestStatus
  rw [show (moderate_image env image_content_type image_bytes db).1 =
    [Event.hashContent (generate_image_hash image_bytes),
     Event.createRequest ⟨db.nextId, "image", generate_image_hash image_bytes,
       "pending", env.now⟩,
     Event.analyzeContent "image",
     Event.insertResult ⟨db.nextId, (analyze_image env.backend image_bytes).classification,
       some (analyze_image env.backend image_bytes).confidence,
       (analyze_image env.backend image_bytes).reasoning⟩,
     Event.setStatus db.nextId
       (if (analyze_image env.backend image_bytes).classification ≠ "error"
        then "completed" else "failed")] ++
    notificationEvents env.notify env.notifLogCommit db.nextId "image"
      (analyze_image env.backend image_bytes) from by
      unfold moderate_image
      rw [if_neg (not_not_intro hct)]]
  rw [hreq, find?_append_new _ _ db.nextId rfl hwf]
  rfl

/-- A channel outcome is "skipped" exactly when its configuration is
missing (Slack). -/
theorem slack_skipped_iff (cfg : NotifConfig) (t : Except String (Nat × String)) :
    ((send_slack_notification cfg t).status = "skipped") ↔
      falsyStr cfg.slack_webhook_url = true := by
  unfold send_slack_notification
  by_cases h : falsyStr cfg.slack_webhook_url
  · simp [h]
  · simp only [h, Bool.false_eq_true, iff_false, if_neg]
    cases t with
    | error e => simp
    | ok p =>
        by_cases hc : p.1 = 200 <;> simp [hc]

/-- A channel outcome is "skipped" exactly when its configuration is
missing (Brevo email). -/
theorem email_skipped_iff (cfg : NotifConfig) (t : Except String (Nat × String)) :
    ((send_email_notification cfg t).status = "skipped") ↔
      (falsyStr cfg.brevo_api_key || falsyStr cfg.email_from ||
        falsyStr cfg.email_to) = true := by
  unfold send_email_notification
  by_cases h : falsyStr cfg.brevo_api_key || falsyStr cfg.email_from ||
      falsyStr cfg.email_to
  · simp [h]
  · simp only [h, Bool.false_eq_true, iff_false, if_neg]
    cases t with
    | error e => simp
    | ok p =>
        by_cases hc : p.1 = 200 ∨ p.1 = 201 <;> simp [hc]

/-- Every notification row produced by the notification block belongs to
the new request, has a non-skipped status, and carries the status its own
send function of its own channel returned. -/
theorem mem_notificationsOf_notificationEvents (notify : NotifyEnv)
    (commit : Except String Unit) (rid : Nat) (ct : String)
    (ar : AnalysisResult) (n : NotificationRow)
    (hn : n ∈ notificationsOf (notificationEvents notify commit rid ct ar)) :
    n.request_id = rid ∧ n.status ≠ "skipped" ∧
    ((n.channel = "slack" ∧
        (send_slack_notification notify.cfg notify.slackTransport).status = n.status) ∨
     (n.channel = "email" ∧
        (send_email_notification notify.cfg notify.emailTransport).status = n.status)) := by
  unfold notificationEvents at hn
  split at hn
  · cases commit with
    | error m => simp [notificationsOf] at hn
    | ok u =>
        simp only [notify_inappropriate_content] at hn
        by_cases hs : (send_slack_notification notify.cfg notify.slackTransport).status
            = "skipped" <;>
          by_cases he : (send_email_notification notify.cfg notify.emailTransport).status
              = "skipped" <;>
          simp [notificationsOf, List.filter, hs, he] at hn <;>
          first
            | (rcases hn with rfl | rfl
               · exact ⟨rfl, by simpa using hs, Or.inl ⟨rfl, rfl⟩⟩
               · exact ⟨rfl, by simpa using he, Or.inr ⟨rfl, rfl⟩⟩)
            | (subst hn
               exact ⟨rfl, by simpa using hs, Or.inl ⟨rfl, rfl⟩⟩)
            | (subst hn
               exact ⟨rfl, by simpa using he, Or.inr ⟨rfl, rfl⟩⟩)
  · simp [notificationsOf] at hn

theorem filter_setStatus_eq_nil (events : List Event)
    (h : ∀ e ∈ events, ∃ r, e = Event.insertNotification r) :
    events.filter isSetStatus = [] := by
  induction events with
  | nil => rfl
  | cons e rest ih =>
      obtain ⟨r, rfl⟩ := h e (List.mem_cons_self e rest)
      simpa [List.filter_cons, isSetStatus] using
        ih (fun e' he' => h e' (List.mem_cons_of_mem _ he'))

/-- The image endpoint (valid MIME type) performs exactly one status
assignment: the classification-determined terminal status on the new
request. -/
theorem moderate_image_setStatus_events (env : PipelineEnv)
    (image_content_type : String) (image_bytes : List Nat) (db : Store)
    (hct : image_content_type ∈ allowed_types) :
    (moderate_image env image_content_type image_bytes db).1.filter isSetStatus =
      [Event.setStatus db.nextId
        (if (analyze_image env.backend image_bytes).classification ≠ "error"
         then "completed" else "failed")] := by
  rw [show (moderate_image env image_content_type image_bytes db).1 =
    [Event.hashContent (generate_image_hash image_bytes),
     Event.createRequest ⟨db.nextId, "image", generate_image_hash image_bytes,
       "pending", env.now⟩,
     Event.analyzeContent "image",
     Event.insertResult ⟨db.nextId, (analyze_image env.backend image_bytes).classification,
       some (analyze_image env.backend image_bytes).confidence,
       (analyze_image env.backend image_bytes).reasoning⟩,
     Event.setStatus db.nextId
       (if (analyze_image env.backend image_bytes).classification ≠ "error"
        then "completed" else "failed")] ++
    notificationEvents env.notify env.notifLogCommit db.nextId "image"
      (analyze_image env.backend image_bytes) from by
      unfold moderate_image
      rw [if_neg (not_not_intro hct)]]
  rw [List.filter_append,
    filter_setStatus_eq_nil _ (notificationEvents_only_notifs _ _ _ _ _)]
  rfl

/-- Closed form of the safety-rating loop: the accumulated flagged list
is the MEDIUM/HIGH ratings mapped through the category table, and the
accumulated score is the running maximum of the bucket scores. -/
theorem foldl_ratingStep (rs : List SafetyRating) :
    ∀ acc : List String × ℚ,
      rs.foldl ratingStep acc =
        (acc.1 ++ (rs.filter (fun r =>
            r.probability = "MEDIUM" ∨ r.probability = "HIGH")).map
            (fun r => HARM_CATEGORIES r.category),
         (rs.map (fun r => HARM_PROBABILITY_SCORES r.probability)).foldl max acc.2) := by
  induction rs with
  | nil => intro acc; simp
  | cons r rest ih =>
      intro acc
      rw [List.foldl_cons, ih]
      by_cases hf : r.probability = "MEDIUM" ∨ r.probability = "HIGH" <;>
        simp [ratingStep, hf, List.filter_cons, List.append_assoc]

theorem le_foldl_max (l : List ℚ) (a : ℚ) :
    a ≤ l.foldl max a ∧ ∀ x ∈ l, x ≤ l.foldl max a := by
  induction l generalizing a with
  | nil => exact ⟨le_refl a, by simp⟩
  | cons b rest ih =>
      obtain ⟨h1, h2⟩ := ih (max a b)
      refine ⟨le_trans (le_max_left a b) h1, ?_⟩
      intro x hx
      rcases List.mem_cons.mp hx with rfl | hx
      · exact le_trans (le_max_right a x) h1
      · exact h2 x hx

theorem foldl_max_mem (l : List ℚ) (a : ℚ) :
    l.foldl max a = a ∨ l.foldl max a ∈ l := by
  induction l generalizing a with
  | nil => exact Or.inl rfl
  | cons b rest ih =>
      rw [List.foldl_cons]
      rcases ih (max a b) with h | h
      · rcases max_choice a b with hm | hm
        · exact Or.inl (h.trans hm)
        · exact Or.inr (List.mem_cons.mpr (Or.inl (h.trans hm)))
      · exact Or.inr (List.mem_cons.mpr (Or.inr h))

theorem bucket_score_pos (p : String)
    (hp : p ∈ ["NEGLIGIBLE", "LOW", "MEDIUM", "HIGH"]) :
    (0.1 : ℚ) ≤ HARM_PROBABILITY_SCORES p := by
  rcases List.mem_cons.mp hp with rfl | hp
  · simp [HARM_PROBABILITY_SCORES]
  rcases List.mem_cons.mp hp with rfl | hp
  · simp [HARM_PROBABILITY_SCORES]
    norm_num
  rcases List.mem_cons.mp hp with rfl | hp
  · simp [HARM_PROBABILITY_SCORES]
    norm_num
  rcases List.mem_cons.mp hp with rfl | hp
  · simp [HARM_PROBABILITY_SCORES]
    norm_num
  · simp at hp

/-! ## Claim theorems -/

/-- C1: the Analyzer functions never let an exception past their
boundary: on any internal fault (any exception `e` raised by the
initialization / decoding / backend-call prefix, caught by the
all-covering handler) both `analyze_text` and `analyze_image` return a
result with classification "error", confidence 0.0 and a diagnostic
reasoning string naming the fault, rather than propagating the
exception. -/
theorem analyzer_error_contract (e text : String) (image_bytes : List Nat) :
    analyze_text (.error e) text =
      { classification := "error", confidence := 0,
        reasoning := "Error analyzing text: " ++ e, llm_response := .error e } ∧
    analyze_image (.error e) image_bytes =
      { classification := "error", confidence := 0,
        reasoning := "Error processing image: " ++ e, llm_response := .error e } :=
  ⟨rfl, rfl⟩

/-- C6: the content hasher is deterministic and content-type independent:
hashing the same bytes twice gives the same hex digest, and the text
hasher equals the image hasher applied to the UTF-8 encoding of the text
— both are the SHA-256 hex digest of the bytes. -/
theorem hash_deterministic_and_agnostic (x : List Nat) (s : String) :
    generate_image_hash x = generate_image_hash x ∧
    generate_content_hash s = generate_image_hash (utf8Bytes s) ∧
    generate_content_hash s = sha256hex (utf8Bytes s) ∧
    generate_image_hash x = sha256hex x :=
  ⟨rfl, rfl, rfl, rfl⟩

/-- C10: an image submission whose declared content type is not among the
five allowed image MIME types is rejected with HTTP 400 before any state
change: the trace is empty (so the store is unchanged, no request row is
created, the content is never hashed and the Analyzer is never
invoked). -/
theorem invalid_image_type_rejected (env : PipelineEnv)
    (image_content_type : String) (image_bytes : List Nat) (db : Store)
    (h : image_content_type ∉ allowed_types) :
    (moderate_image env image_content_type image_bytes db).1 = [] ∧
    (moderate_image env image_content_type image_bytes db).2 =
      .error { status_code := 400
               detail := "Invalid file type. Allowed types: " ++
                 "image/jpeg, image/jpg, image/png, image/gif, image/webp" } ∧
    replay db (moderate_image env image_content_type image_bytes db).1 = db ∧
    (∀ hsh, Event.hashContent hsh ∉
      (moderate_image env image_content_type image_bytes db).1) ∧
    Event.analyzeContent "image" ∉
      (moderate_image env image_content_type image_bytes db).1 := by
  have key : moderate_image env image_content_type image_bytes db =
      ([], .error { status_code := 400
                    detail := "Invalid file type. Allowed types: " ++
                      "image/jpeg, image/jpg, image/png, image/gif, image/webp" }) := by
    have hint : String.intercalate ", " allowed_types =
        "image/jpeg, image/jpg, image/png, image/gif, image/webp" := by decide
    unfold moderate_image
    rw [if_pos h, hint]
  refine ⟨?_, ?_, ?_, ?_, ?_⟩ <;> rw [key] <;> simp [replay]

/-- C2 (code bug): the image half behaves as claimed — an Analyzer
result with classification "error" yields Request status "failed" and
zero persisted notification rows — but the claimed text half is
unreachable: every text submission fails with HTTP 500 inside the
`ModerationRequest` constructor (the mapped class defines no `user_email`
attribute), leaves the store unchanged and assigns no status at all, so
the text path never sets status "completed". -/
theorem image_error_failed_text_crashes (env : PipelineEnv)
    (request : TextModerationRequest) (image_content_type : String)
    (image_bytes : List Nat) (db : Store) (hwf : StoreWF db)
    (hct : image_content_type ∈ allowed_types)
    (himg : (analyze_image env.backend image_bytes).classification = "error") :
    requestStatus (replay db
        (moderate_image env image_content_type image_bytes db).1) db.nextId =
      some "failed" ∧
    notificationsOf (moderate_image env image_content_type image_bytes db).1 = [] ∧
    (moderate_text env request db).2 =
      .error { status_code := 500
               detail := "Error processing text moderation: user_email is an invalid keyword argument for ModerationRequest" } ∧
    replay db (moderate_text env request db).1 = db ∧
    (moderate_text env request db).1.filter isSetStatus = [] := by
  refine ⟨?_, ?_, rfl, rfl, rfl⟩
  · rw [moderate_image_requestStatus env image_content_type image_bytes db hwf hct,
      himg]
    simp
  · rw [show (moderate_image env image_content_type image_bytes db).1 =
      [Event.hashContent (generate_image_hash image_bytes),
       Event.createRequest ⟨db.nextId, "image", generate_image_hash image_bytes,
         "pending", env.now⟩,
       Event.analyzeContent "image",
       Event.insertResult ⟨db.nextId, (analyze_image env.backend image_bytes).classification,
         some (analyze_image env.backend image_bytes).confidence,
         (analyze_image env.backend image_bytes).reasoning⟩,
       Event.setStatus db.nextId
         (if (analyze_image env.backend image_bytes).classification ≠ "error"
          then "completed" else "failed")] ++
      notificationEvents env.notify env.notifLogCommit db.nextId "image"
        (analyze_image env.backend image_bytes) from by
        unfold moderate_image
        rw [if_neg (not_not_intro hct)]]
    rw [notificationsOf_pipeline,
      notificationEvents_not_inappropriate _ _ _ _ _ (by rw [himg]; decide)]
    rfl

/-- Witness for C2: a backend fault (`.error "backend down"`) makes the
analyzer report classification "error"; the image request ends "failed"
with no notifications, while the text submission gets the constant
HTTP 500 of the broken constructor. -/
theorem image_error_failed_text_crashes_witness :
    let env : PipelineEnv :=
      ⟨.error "backend down", ⟨⟨some "https://hooks", some "k", some "f", some "t"⟩,
        .ok (200, ""), .ok (200, "")⟩, .ok (), 3⟩
    StoreWF emptyStore ∧
    ("image/png" ∈ allowed_types) ∧
    (analyze_image env.backend [9, 9]).classification = "error" ∧
    requestStatus (replay emptyStore
        (moderate_image env "image/png" [9, 9] emptyStore).1) emptyStore.nextId =
      some "failed" ∧
    notificationsOf (moderate_image env "image/png" [9, 9] emptyStore).1 = [] ∧
    (moderate_text env ⟨"hi", none, none⟩ emptyStore).2 =
      .error { status_code := 500
               detail := "Error processing text moderation: user_email is an invalid keyword argument for ModerationRequest" } := by
  intro env
  have h1 : StoreWF emptyStore := by intro r hr; simp [emptyStore] at hr
  have main := image_error_failed_text_crashes env ⟨"hi", none, none⟩ "image/png"
    [9, 9] emptyStore h1 (by decide) rfl
  exact ⟨h1, by decide, rfl, main.1, main.2.1, main.2.2.1⟩

/-- C5 (code bug): on the image path the submission trace is
status-monotonic as claimed: its single `setStatus` event carries a
terminal value, occurs after the result insert and the pending request
creation, and no later event assigns a status.  On the text path the
claimed property "exactly one terminal status is assigned" fails: the
endpoint dies in the `ModerationRequest` constructor on every call, so a
text submission creates no request row and assigns zero statuses. -/
theorem status_monotonic_image_text_none (env : PipelineEnv)
    (request : TextModerationRequest) (image_content_type : String)
    (image_bytes : List Nat) (db : Store)
    (hct : image_content_type ∈ allowed_types) :
    monotonicTrace (moderate_image env image_content_type image_bytes db).1
      db.nextId ∧
    (moderate_text env request db).1.filter isSetStatus = [] ∧
    (∀ row, Event.createRequest row ∉ (moderate_text env request db).1) ∧
    (moderate_text env request db).2 =
      .error { status_code := 500
               detail := "Error processing text moderation: user_email is an invalid keyword argument for ModerationRequest" } := by
  refine ⟨?_, rfl, ?_, rfl⟩
  · have hev : (moderate_image env image_content_type image_bytes db).1 =
      [Event.hashContent (generate_image_hash image_bytes),
       Event.createRequest ⟨db.nextId, "image", generate_image_hash image_bytes,
         "pending", env.now⟩,
       Event.analyzeContent "image",
       Event.insertResult ⟨db.nextId, (analyze_image env.backend image_bytes).classification,
         some (analyze_image env.backend image_bytes).confidence,
         (analyze_image env.backend image_bytes).reasoning⟩,
       Event.setStatus db.nextId
         (if (analyze_image env.backend image_bytes).classification ≠ "error"
          then "completed" else "failed")] ++
      notificationEvents env.notify env.notifLogCommit db.nextId "image"
        (analyze_image env.backend image_bytes) := by
      unfold moderate_image
      rw [if_neg (not_not_intro hct)]
    rw [hev]
    refine ⟨(if (analyze_image env.backend image_bytes).classification ≠ "error"
             then "completed" else "failed"),
      [Event.hashContent (generate_image_hash image_bytes),
       Event.createRequest ⟨db.nextId, "image", generate_image_hash image_bytes,
         "pending", env.now⟩,
       Event.analyzeContent "image",
       Event.insertResult ⟨db.nextId, (analyze_image env.backend image_bytes).classification,
         some (analyze_image env.backend image_bytes).confidence,
         (analyze_image env.backend image_bytes).reasoning⟩],
      notificationEvents env.notify env.notifLogCommit db.nextId "image"
        (analyze_image env.backend image_bytes),
      rfl, ?_,
      ⟨⟨db.nextId, "image", generate_image_hash image_bytes,
          "pending", env.now⟩, by simp, rfl, rfl⟩,
      ⟨⟨db.nextId, (analyze_image env.backend image_bytes).classification,
          some (analyze_image env.backend image_bytes).confidence,
          (analyze_image env.backend image_bytes).reasoning⟩, by simp, rfl⟩,
      ?_, ?_⟩
    · split
      · exact Or.inl rfl
      · exact Or.inr rfl
    · intro e he
      simp only [List.mem_cons, List.not_mem_nil, or_false] at he
      rcases he with rfl | rfl | rfl | rfl <;> rfl
    · exact notificationsOf_of_notifs _ (notificationEvents_only_notifs _ _ _ _ _)
  · intro row h
    simp [moderate_text] at h

/-- Witness for C5 on a concrete pair of submissions: a clean backend
response, both endpoints, the empty store. -/
theorem status_monotonic_image_text_none_witness :
    let env : PipelineEnv :=
      ⟨.ok ⟨[⟨"HARM_CATEGORY_HATE_SPEECH", "NEGLIGIBLE"⟩], "all good"⟩,
        ⟨⟨none, none, none, none⟩, .ok (200, ""), .ok (200, "")⟩, .ok (), 1⟩
    ("image/jpeg" ∈ allowed_types) ∧
    monotonicTrace (moderate_image env "image/jpeg" [0] emptyStore).1
      emptyStore.nextId ∧
    (moderate_text env ⟨"hello", none, none⟩ emptyStore).1.filter isSetStatus
      = [] := by
  intro env
  have main := status_monotonic_image_text_none env ⟨"hello", none, none⟩
    "image/jpeg" [0] emptyStore (by decide)
  exact ⟨by decide, main.1, main.2.1⟩

/-- C3: the persisted notification rows of a moderation request form a
subset of the configured channels, are non-empty only when the result is
classified "inappropriate", and never include a skipped outcome: a
channel with missing configuration reports "skipped" and is never
written.  The notification block is reachable only on the image
endpoint; the text endpoint persists zero notification rows (it fails
before creating anything). -/
theorem notifications_subset_configured (env : PipelineEnv)
    (request : TextModerationRequest) (image_content_type : String)
    (image_bytes : List Nat) (db : Store)
    (t : Except String (Nat × String))
    (hct : image_content_type ∈ allowed_types) :
    (∀ n ∈ notificationsOf (moderate_image env image_content_type image_bytes db).1,
        n.channel ∈ configuredChannels env.notify.cfg ∧
        n.status ≠ "skipped" ∧ n.request_id = db.nextId) ∧
    ((analyze_image env.backend image_bytes).classification ≠ "inappropriate" →
        notificationsOf (moderate_image env image_content_type image_bytes db).1
          = []) ∧
    (falsyStr env.notify.cfg.slack_webhook_url = true →
        (send_slack_notification env.notify.cfg t).status = "skipped" ∧
        ∀ n ∈ notificationsOf (moderate_image env image_content_type image_bytes db).1,
          n.channel ≠ "slack") ∧
    notificationsOf (moderate_text env request db).1 = [] := by
  have hev : notificationsOf (moderate_image env image_content_type image_bytes db).1 =
      notificationsOf (notificationEvents env.notify env.notifLogCommit db.nextId
        "image" (analyze_image env.backend image_bytes)) := by
    rw [show (moderate_image env image_content_type image_bytes db).1 =
      [Event.hashContent (generate_image_hash image_bytes),
       Event.createRequest ⟨db.nextId, "image", generate_image_hash image_bytes,
         "pending", env.now⟩,
       Event.analyzeContent "image",
       Event.insertResult ⟨db.nextId, (analyze_image env.backend image_bytes).classification,
         some (analyze_image env.backend image_bytes).confidence,
         (analyze_image env.backend image_bytes).reasoning⟩,
       Event.setStatus db.nextId
         (if (analyze_image env.backend image_bytes).classification ≠ "error"
          then "completed" else "failed")] ++
      notificationEvents env.notify env.notifLogCommit db.nextId "image"
        (analyze_image env.backend image_bytes) from by
        unfold moderate_image
        rw [if_neg (not_not_intro hct)]]
    exact notificationsOf_pipeline _ _ _ _ _ _ _
  refine ⟨?_, ?_, ?_, rfl⟩
  · intro n hn
    rw [hev] at hn
    obtain ⟨hrid, hst, hch⟩ :=
      mem_notificationsOf_notificationEvents _ _ _ _ _ _ hn
    refine ⟨?_, hst, hrid⟩
    rcases hch with ⟨hc, hs⟩ | ⟨hc, hs⟩
    · have hnf : falsyStr env.notify.cfg.slack_webhook_url = false := by
        cases hb : falsyStr env.notify.cfg.slack_webhook_url
        · rfl
        · exact absurd (hs ▸ (slack_skipped_iff _ _).mpr hb) hst
      simp [configuredChannels, hc, hnf]
    · have hnf : (falsyStr env.notify.cfg.brevo_api_key ||
          falsyStr env.notify.cfg.email_from ||
          falsyStr env.notify.cfg.email_to) = false := by
        cases hb : (falsyStr env.notify.cfg.brevo_api_key ||
            falsyStr env.notify.cfg.email_from || falsyStr env.notify.cfg.email_to)
        · rfl
        · exact absurd (hs ▸ (email_skipped_iff _ _).mpr hb) hst
      simp only [configuredChannels, hnf, hc, Bool.false_eq_true, if_false]
      cases hfs : falsyStr env.notify.cfg.slack_webhook_url <;> simp
  · intro hcl
    rw [hev, notificationEvents_not_inappropriate _ _ _ _ _ hcl]
    rfl
  · intro hf
    refine ⟨(slack_skipped_iff _ _).mpr hf, ?_⟩
    intro n hn hc
    rw [hev] at hn
    obtain ⟨_, hst, hch⟩ :=
      mem_notificationsOf_notificationEvents _ _ _ _ _ _ hn
    rcases hch with ⟨_, hs⟩ | ⟨hc2, _⟩
    · exact hst (hs ▸ (slack_skipped_iff _ _).mpr hf)
    · rw [hc] at hc2
      exact absurd hc2 (by decide)

/-- Witness for C3: Slack unconfigured, email fully configured, an
inappropriate image classification; exactly the "email" row is persisted
and the text endpoint persists nothing. -/
theorem notifications_subset_configured_witness :
    let env : PipelineEnv :=
      ⟨.ok ⟨[⟨"HARM_CATEGORY_HATE_SPEECH", "HIGH"⟩], ""⟩,
        ⟨⟨none, some "k", some "f", some "t"⟩, .ok (200, ""), .ok (200, "")⟩,
        .ok (), 2⟩
    ("image/png" ∈ allowed_types) ∧
    ((analyze_image env.backend [7]).classification = "inappropriate") ∧
    (falsyStr env.notify.cfg.slack_webhook_url = true) ∧
    (send_slack_notification env.notify.cfg env.notify.slackTransport).status
      = "skipped" ∧
    (∀ n ∈ notificationsOf (moderate_image env "image/png" [7] emptyStore).1,
      n.channel ≠ "slack") ∧
    (∀ n ∈ notificationsOf (moderate_image env "image/png" [7] emptyStore).1,
      n.channel ∈ configuredChannels env.notify.cfg) ∧
    notificationsOf (moderate_text env ⟨"x", none, none⟩ emptyStore).1 = [] := by
  intro env
  have main := notifications_subset_configured env ⟨"x", none, none⟩ "image/png"
    [7] emptyStore env.notify.slackTransport (by decide)
  have h3 := main.2.2.1 rfl
  exact ⟨by decide, rfl, rfl, h3.1, h3.2, fun n hn => (main.1 n hn).1, main.2.2.2⟩

/-- C4: failures during notification dispatch or during persisting
notification outcomes are confined to the notification phase: for any
change of the notification environment (channel transports, channel
configuration, the notification-log commit outcome) the image-endpoint
response and the status assignments of its trace are unchanged, every
valid image submission gets a normal response, and the outcome of each
channel is independent of the transport of the other channel.  (The text
endpoint never reaches notification dispatch, so no such failure can
arise there.) -/
theorem notification_failures_isolated (env : PipelineEnv)
    (image_content_type : String) (image_bytes : List Nat) (db : Store)
    (n' : NotifyEnv) (c' : Except String Unit) (cfg : NotifConfig)
    (s s' e e' : Except String (Nat × String)) (rid : Nat)
    (ct cl rs : String) (conf : ℚ) (fc : List String) :
    (image_content_type ∈ allowed_types →
      ∃ r, (moderate_image env image_content_type image_bytes db).2 = .ok r) ∧
    ((moderate_image { env with notify := n', notifLogCommit := c' }
        image_content_type image_bytes db).2 =
      (moderate_image env image_content_type image_bytes db).2) ∧
    ((moderate_image { env with notify := n', notifLogCommit := c' }
        image_content_type image_bytes db).1.filter isSetStatus =
      (moderate_image env image_content_type image_bytes db).1.filter isSetStatus) ∧
    ((notify_inappropriate_content ⟨cfg, s, e⟩ rid ct cl conf rs fc).head? =
      (notify_inappropriate_content ⟨cfg, s, e'⟩ rid ct cl conf rs fc).head?) ∧
    ((notify_inappropriate_content ⟨cfg, s, e⟩ rid ct cl conf rs fc).getLast? =
      (notify_inappropriate_content ⟨cfg, s', e⟩ rid ct cl conf rs fc).getLast?) := by
  refine ⟨?_, ?_, ?_, rfl, rfl⟩
  · intro hct
    unfold moderate_image
    rw [if_neg (not_not_intro hct)]
    exact ⟨_, rfl⟩
  · by_cases hct : image_content_type ∈ allowed_types
    · unfold moderate_image
      rw [if_neg (not_not_intro hct), if_neg (not_not_intro hct)]
    · unfold moderate_image
      rw [if_pos hct, if_pos hct]
  · by_cases hct : image_content_type ∈ allowed_types
    · rw [moderate_image_setStatus_events _ _ _ _ hct,
        moderate_image_setStatus_events _ _ _ _ hct]
    · unfold moderate_image
      rw [if_pos hct, if_pos hct]

/-- Witness for C4: a concrete image submission with both transports
failing and the notification-log commit failing; the response matches
the failure-free run. -/
theorem notification_failures_isolated_witness :
    let cfgW : NotifConfig := ⟨some "https://hooks", some "k", some "f", some "t"⟩
    let okNotify : NotifyEnv := ⟨cfgW, .ok (200, ""), .ok (200, "")⟩
    let badNotify : NotifyEnv := ⟨cfgW, .error "conn reset", .error "dns"⟩
    let env : PipelineEnv :=
      ⟨.ok ⟨[⟨"HARM_CATEGORY_HARASSMENT", "HIGH"⟩], ""⟩, okNotify, .ok (), 4⟩
    ("image/gif" ∈ allowed_types) ∧
    (∃ r, (moderate_image env "image/gif" [5] emptyStore).2 = .ok r) ∧
    ((moderate_image { env with notify := badNotify, notifLogCommit := .error "db gone" }
        "image/gif" [5] emptyStore).2 =
      (moderate_image env "image/gif" [5] emptyStore).2) := by
  intro cfgW okNotify badNotify env
  have main := notification_failures_isolated env "image/gif" [5]
    emptyStore badNotify (.error "db gone") cfgW (.ok (200, "")) (.ok (200, ""))
    (.ok (200, "")) (.ok (200, "")) 0 "image" "inappropriate" "r" 0.9 []
  exact ⟨by decide, main.1 (by decide), main.2.1⟩

/-- C7: the hosted-classifier scoring contract: the four probability
buckets map to the fixed scores 0.1 / 0.3 / 0.6 / 0.9; when every rating
carries one of the four buckets (and there is at least one rating) the
reported confidence is the maximum of the per-category scores; the
flagged-category list consists exactly of the categories whose bucket is
MEDIUM or HIGH; and any MEDIUM/HIGH rating forces the classification
"inappropriate". -/
theorem harm_score_contract (rs : List SafetyRating) (gtext text : String)
    (hne : rs ≠ [])
    (hb : ∀ r ∈ rs, r.probability ∈ ["NEGLIGIBLE", "LOW", "MEDIUM", "HIGH"]) :
    HARM_PROBABILITY_SCORES "NEGLIGIBLE" = 0.1 ∧
    HARM_PROBABILITY_SCORES "LOW" = 0.3 ∧
    HARM_PROBABILITY_SCORES "MEDIUM" = 0.6 ∧
    HARM_PROBABILITY_SCORES "HIGH" = 0.9 ∧
    (∃ r ∈ rs, HARM_PROBABILITY_SCORES r.probability =
        (analyze_text (.ok ⟨rs, gtext⟩) text).confidence) ∧
    (∀ r ∈ rs, HARM_PROBABILITY_SCORES r.probability ≤
        (analyze_text (.ok ⟨rs, gtext⟩) text).confidence) ∧
    (processRatings rs).1 = (rs.filter (fun r =>
        r.probability = "MEDIUM" ∨ r.probability = "HIGH")).map
        (fun r => HARM_CATEGORIES r.category) ∧
    ((∃ r ∈ rs, r.probability = "MEDIUM" ∨ r.probability = "HIGH") →
      (analyze_text (.ok ⟨rs, gtext⟩) text).classification = "inappropriate") := by
  rcases hps : processRatings rs with ⟨F, Mv⟩
  have hflag : F = (rs.filter (fun r =>
      r.probability = "MEDIUM" ∨ r.probability = "HIGH")).map
      (fun r => HARM_CATEGORIES r.category) := by
    have := foldl_ratingStep rs ([], 0)
    rw [show rs.foldl ratingStep ([], 0) = processRatings rs from rfl, hps] at this
    simpa using congrArg Prod.fst this
  have hmax : Mv = (rs.map (fun r =>
      HARM_PROBABILITY_SCORES r.probability)).foldl max 0 := by
    have := foldl_ratingStep rs ([], 0)
    rw [show rs.foldl ratingStep ([], 0) = processRatings rs from rfl, hps] at this
    simpa using congrArg Prod.snd this
  obtain ⟨r0, hr0⟩ : ∃ r, r ∈ rs := by
    cases rs with
    | nil => exact absurd rfl hne
    | cons a l => exact ⟨a, List.mem_cons_self a l⟩
  have hr0le : HARM_PROBABILITY_SCORES r0.probability ≤ Mv := by
    rw [hmax]
    exact (le_foldl_max _ 0).2 _ (List.mem_map_of_mem _ hr0)
  have hMvpos : 0 < Mv :=
    lt_of_lt_of_le (by norm_num)
      (le_trans (bucket_score_pos _ (hb r0 hr0)) hr0le)
  have hconf : (analyze_text (.ok ⟨rs, gtext⟩) text).confidence = Mv := by
    simp [analyze_text, hps, hMvpos]
  refine ⟨by simp [HARM_PROBABILITY_SCORES], by simp [HARM_PROBABILITY_SCORES],
    by simp [HARM_PROBABILITY_SCORES], by simp [HARM_PROBABILITY_SCORES],
    ?_, ?_, by simpa using hflag, ?_⟩
  · rw [hconf, hmax]
    rcases foldl_max_mem (rs.map (fun r =>
        HARM_PROBABILITY_SCORES r.probability)) 0 with h | h
    · exact absurd (hmax ▸ h : Mv = 0) (ne_of_gt hMvpos)
    · obtain ⟨r1, hr1, hv⟩ := List.mem_map.mp h
      exact ⟨r1, hr1, hv⟩
  · intro r hr
    rw [hconf, hmax]
    exact (le_foldl_max _ 0).2 _ (List.mem_map_of_mem _ hr)
  · rintro ⟨r1, hr1, hp1⟩
    have hmem : HARM_CATEGORIES r1.category ∈ F := by
      rw [hflag]
      exact List.mem_map_of_mem _ (List.mem_filter.mpr ⟨hr1, by simpa using hp1⟩)
    obtain ⟨f, tl, rfl⟩ := List.exists_cons_of_ne_nil (List.ne_nil_of_mem hmem)
    simp [analyze_text, hps]

/-- Witness for C7 at a concrete pair of safety ratings (one HIGH, one
NEGLIGIBLE): confidence 0.9 and classification "inappropriate". -/
theorem harm_score_contract_witness :
    let rs : List SafetyRating :=
      [⟨"HARM_CATEGORY_HATE_SPEECH", "HIGH"⟩,
       ⟨"HARM_CATEGORY_DANGEROUS_CONTENT", "NEGLIGIBLE"⟩]
    rs ≠ [] ∧
    (∀ r ∈ rs, r.probability ∈ ["NEGLIGIBLE", "LOW", "MEDIUM", "HIGH"]) ∧
    (∀ r ∈ rs, HARM_PROBABILITY_SCORES r.probability ≤
        (analyze_text (.ok ⟨rs, ""⟩) "x").confidence) ∧
    (analyze_text (.ok ⟨rs, ""⟩) "x").classification = "inappropriate" := by
  intro rs
  have h1 : rs ≠ [] := by simp [rs]
  have h2 : ∀ r ∈ rs, r.probability ∈ ["NEGLIGIBLE", "LOW", "MEDIUM", "HIGH"] := by
    decide
  have main := harm_score_contract rs "" "x" h1 h2
  exact ⟨h1, h2, main.2.2.2.2.2.1,
    main.2.2.2.2.2.2.2 ⟨⟨"HARM_CATEGORY_HATE_SPEECH", "HIGH"⟩, by decide⟩⟩

/-- C8: the list endpoint returns as `total` the count of all rows
matching the filters (computed before pagination, not the page size), at
most `limit` items (exactly `min limit (total - skip)`), ordered by
`created_at` descending; in particular skip=0, limit=10 over 25 stored
requests yields total 25 and 10 items. -/
theorem summaries_pagination (db : Store) (skip limit : Nat)
    (content_type status : Option String) :
    (get_analysis_summaries db skip limit content_type status).1 =
      (db.requests.filter (matchesFilters content_type status)).length ∧
    (get_analysis_summaries db skip limit content_type status).2.length ≤ limit ∧
    (get_analysis_summaries db skip limit content_type status).2.length =
      min limit
        ((get_analysis_summaries db skip limit content_type status).1 - skip) ∧
    List.Pairwise (fun a b => b.created_at ≤ a.created_at)
      (get_analysis_summaries db skip limit content_type status).2 ∧
    (get_analysis_summaries db25 0 10 none none).1 = 25 ∧
    (get_analysis_summaries db25 0 10 none none).2.length = 10 := by
  have hlen : (get_analysis_summaries db skip limit content_type status).2.length =
      min limit
        ((db.requests.filter (matchesFilters content_type status)).length - skip) := by
    simp [get_analysis_summaries, List.length_insertionSort]
  refine ⟨rfl, ?_, ?_, ?_, by decide, by decide⟩
  · rw [hlen]
    exact Nat.min_le_left _ _
  · exact hlen
  · have hsorted : List.Sorted createdDesc
        (List.insertionSort createdDesc
          (db.requests.filter (matchesFilters content_type status))) :=
      List.sorted_insertionSort createdDesc _
    have hsub : (((List.insertionSort createdDesc
        (db.requests.filter (matchesFilters content_type status))).drop skip).take limit).Sublist
        (List.insertionSort createdDesc
          (db.requests.filter (matchesFilters content_type status))) :=
      (List.take_sublist _ _).trans (List.drop_sublist _ _)
    exact (hsorted.sublist hsub).map _ (fun a b hab => hab)

/-- C9 (code bug): the analytics endpoint can never produce a summary,
so the claimed aggregation is unreachable: building the query filter
evaluates `ModerationRequest.user_email`, an attribute the mapped class
does not define, so the endpoint raises `AttributeError` internally and
answers HTTP 500 for every user over every store state — it never
returns an `AnalyticsSummary`. -/
theorem analytics_endpoint_always_500 (db : Store) (user : String) :
    get_analytics_summary db user =
      .error { status_code := 500
               detail := "Error retrieving analytics: type object ModerationRequest has no attribute user_email" } ∧
    ∀ s : AnalyticsSummary, get_analytics_summary db user ≠ .ok s := by
  refine ⟨rfl, ?_⟩
  intro s h
  simp [get_analytics_summary] at h

/-- Witness for C10 at a concrete invalid submission. -/
theorem invalid_image_type_rejected_witness :
    "text/plain" ∉ allowed_types ∧
    (moderate_image ⟨.error "down", ⟨⟨none, none, none, none⟩, .error "x", .error "y"⟩,
        .ok (), 0⟩ "text/plain" [1, 2, 3] emptyStore).1 = [] :=
  ⟨by decide,
   (invalid_image_type_rejected _ "text/plain" [1, 2, 3] emptyStore (by decide)).1⟩

end Moderator
